import Mathlib

/-!
Shallow embedding of `src/main.py` (groq_phoneinfoga): the `AdvancedScanner`
class and its helpers.  Machine reals of the Python source are modelled as
rationals; Python dicts whose payloads the claims never inspect are modelled
as lists of section names; a raised Python exception is modelled as the
`Except.error` branch of the embedded function's result.
-/

namespace GroqPhoneinfoga

/-- ScanType enum from main.py: BASIC / DEEP / COMPREHENSIVE. -/
inductive ScanType
  | basic
  | deep
  | comprehensive
deriving DecidableEq, Repr

/-- ScanConfig dataclass from main.py (defaults: timeout 10, max_retries 3,
concurrent_requests 5, depth_level 2, verify_ssl true). -/
structure ScanConfig where
  timeout : Nat := 10
  max_retries : Nat := 3
  concurrent_requests : Nat := 5
  depth_level : Nat := 2
  verify_ssl : Bool := true

/-- The character class kept by `re.sub(r'[^\d+]', '', number)` in
`normalize_number`: decimal digits and the plus sign.  (Python's `\d` is
Unicode-aware; the embedding uses ASCII digits, which covers every string the
claims quantify over in the same way.) -/
def keptChar (c : Char) : Bool := c.isDigit || c == '+'

/-- Python's `cleaned.startswith('+')` on the cleaned character list
(false on the empty string). -/
def startsWithPlus : List Char → Bool
  | [] => false
  | c :: _ => c == '+'

/-- Character-list core of `AdvancedScanner.normalize_number`:
`cleaned = re.sub(r'[^\d+]', '', number)` then
`return '+1' + cleaned if not cleaned.startswith('+') else cleaned`. -/
def normalizeChars (l : List Char) : List Char :=
  if startsWithPlus (l.filter keptChar) then l.filter keptChar
  else '+' :: '1' :: l.filter keptChar

/-- `AdvancedScanner.normalize_number` (main.py lines 107-110). -/
def normalize_number (number : String) : String :=
  String.mk (normalizeChars number.toList)

/-- `AdvancedScanner._categorize_risk` (main.py lines 572-583). -/
def _categorize_risk (risk_score : ℚ) : String :=
  if risk_score < 2/10 then "Very Low"
  else if risk_score < 4/10 then "Low"
  else if risk_score < 6/10 then "Medium"
  else if risk_score < 8/10 then "High"
  else "Very High"

/-- Spec-side order on the five risk levels (Very Low < Low < Medium < High <
Very High), used to state monotonicity of `_categorize_risk`; any other string
is sent to 5. -/
def riskLevelIndex : String → Nat
  | "Very Low" => 0
  | "Low" => 1
  | "Medium" => 2
  | "High" => 3
  | "Very High" => 4
  | _ => 5

/-- What the network produces for one attempt of `_make_request`:
a 2xx response (with a content-type that is or is not JSON and a body),
a non-2xx response (on which `response.raise_for_status()` raises an
`HTTPError` carrying the status code), a timeout, or a connection error. -/
inductive AttemptOutcome
  | ok (contentTypeJson : Bool) (body : String)
  | httpError (statusCode : Nat)
  | timeout
  | connectionError
deriving DecidableEq, Repr

/-- The exception raised inside one attempt of `_make_request` (all are
caught by the `except Exception` clause during non-final attempts). -/
inductive RequestError
  | httpError (statusCode : Nat)
  | timeout
  | connectionError
deriving DecidableEq, Repr

/-- The dict `_make_request` returns on a 2xx response: `response.json()`
when the content-type mentions json, else `{'text': response.text}`. -/
inductive Payload
  | jsonPayload (body : String)
  | textPayload (body : String)
deriving DecidableEq, Repr

/-- The body of one loop iteration of `_make_request`: `session.get` followed
by `raise_for_status` and content-type dispatch; `Except.error` is the raised
exception. -/
def attemptResult : AttemptOutcome → Except RequestError Payload
  | .ok true body => .ok (.jsonPayload body)
  | .ok false body => .ok (.textPayload body)
  | .httpError c => .error (.httpError c)
  | .timeout => .error .timeout
  | .connectionError => .error .connectionError

/-- `AdvancedScanner._make_request` (main.py lines 112-126), over the list of
per-attempt network outcomes (one entry per loop iteration, so the list has
length `config.max_retries`).  A successful attempt returns its payload
immediately; a failed attempt is logged and retried, except on the final
attempt (`attempt == max_retries - 1`) where the exception is re-raised,
modelled as `some (.error e)`.  With `max_retries = 0` the loop body never
runs and Python falls off the end returning `None`, modelled as `none`. -/
def _make_request : List AttemptOutcome → Option (Except RequestError Payload)
  | [] => none
  | [a] => some (attemptResult a)
  | a :: b :: rest =>
    match attemptResult a with
    | .ok p => some (.ok p)
    | .error _ => _make_request (b :: rest)

/-- Boolean: the outcome of this attempt is an exception. -/
def attemptFails (a : AttemptOutcome) : Bool :=
  match attemptResult a with
  | .error _ => true
  | .ok _ => false

/-- Boolean: this `_make_request` result is a raised (escaping) exception. -/
def raisesOut (r : Option (Except RequestError Payload)) : Bool :=
  match r with
  | some (.error _) => true
  | _ => false

/-- `AdvancedScanner._parallel_requests` (main.py lines 128-137), with the
per-url result of `_make_request` supplied as an oracle `fetch`.  For each
future, `future.result()` is appended to `results`; when the underlying
`_make_request` call raised, the exception is logged and nothing is appended.
(The code collects in `as_completed` order, which is nondeterministic; the
embedding fixes submission order, which is faithful for the membership and
count properties at issue.)  A `none` from `fetch` is Python's `None` return
value and is appended as a result. -/
def _parallel_requests (urls : List String)
    (fetch : String → Option (Except RequestError Payload)) :
    List (Option Payload) :=
  urls.filterMap fun u =>
    match fetch u with
    | some (.ok p) => some (some p)
    | some (.error _) => none
    | none => some none

/-- Boolean: this url's `_make_request` outcome contributes an entry to the
`results` list of `_parallel_requests` (anything but a raised exception). -/
def fetchKept (r : Option (Except RequestError Payload)) : Bool :=
  match r with
  | some (.error _) => false
  | _ => true

/-- A Python exception escaping one of the scanner methods. -/
inductive PyError
  | numberParseException
  | attributeError (missing : String)
deriving DecidableEq, Repr

/-- Entry of the `type_map` in `_get_line_type`: a type string and a risk
score. -/
structure LineTypeInfo where
  type : String
  risk_score : ℚ
deriving DecidableEq, Repr

/-- `AdvancedScanner._get_line_type` (main.py lines 196-204), over the
integer `phonenumbers.number_type` value; `type_map.get` falls back to
UNKNOWN with risk score 1.0 for any key other than 0..3. -/
def _get_line_type (number_type : Int) : LineTypeInfo :=
  if number_type = 0 then ⟨"UNKNOWN", 8/10⟩
  else if number_type = 1 then ⟨"MOBILE", 3/10⟩
  else if number_type = 2 then ⟨"LANDLINE", 2/10⟩
  else if number_type = 3 then ⟨"VOIP", 7/10⟩
  else ⟨"UNKNOWN", 1⟩

/-- `AdvancedScanner._assess_carrier_reliability` (main.py lines 213-219):
0.3 when the carrier name is truthy (non-empty), 0.7 when empty, 0.8 when
the internal parse raises (`parseOk = false`). -/
def _assess_carrier_reliability (parseOk : Bool) (carrier_name : String) :
    ℚ :=
  if parseOk = false then 8/10
  else if carrier_name ≠ "" then 3/10
  else 7/10

/-- `AdvancedScanner._calculate_spam_probability` (placeholder 0.5). -/
def _calculate_spam_probability : ℚ := 5/10

/-- `AdvancedScanner._calculate_fraud_score` (placeholder 0.4). -/
def _calculate_fraud_score : ℚ := 4/10

/-- `AdvancedScanner._generate_risk_recommendations` (main.py lines
227-233), over the spam and fraud entries of the risk-factor dict. -/
def _generate_risk_recommendations (spam_probability fraud_score : ℚ) :
    List String :=
  (if spam_probability > 5/10 then
    ["High spam probability detected - exercise caution"] else []) ++
  (if fraud_score > 5/10 then
    ["Elevated fraud risk - verify identity through additional channels"]
  else [])

/-- The dict returned by `_assess_risk`. -/
structure RiskAssessment where
  risk_score : ℚ
  risk_factors : List (String × ℚ)
  risk_level : String
  recommendations : List String
deriving DecidableEq, Repr

/-- `AdvancedScanner._assess_risk` (main.py lines 235-249).  Its first line
evaluates `phonenumbers.parse(self.number)` with no try/except, so an
unparseable subject raises `NumberParseException` out of the method; the
parse outcome is supplied as `parsed` (the `number_type` integer when
parsing succeeds).  `total_risk = sum(risk_factors.values()) /
len(risk_factors)`. -/
def _assess_risk (parsed : Option Int) (carrier_name : String) :
    Except PyError RiskAssessment :=
  match parsed with
  | none => Except.error PyError.numberParseException
  | some nt =>
    let risk_factors : List (String × ℚ) :=
      [("number_type", (_get_line_type nt).risk_score),
       ("carrier_reliability", _assess_carrier_reliability true carrier_name),
       ("spam_probability", _calculate_spam_probability),
       ("fraud_score", _calculate_fraud_score)]
    let total_risk := (risk_factors.map Prod.snd).sum / risk_factors.length
    Except.ok
      ⟨total_risk, risk_factors, _categorize_risk total_risk,
        _generate_risk_recommendations _calculate_spam_probability
          _calculate_fraud_score⟩

/-- Section keys of the dict built unconditionally by `analyze_number`
(main.py lines 140-148). -/
def baseSections : List String :=
  ["metadata", "basic_info", "risk_assessment", "digital_footprint",
   "temporal_analysis", "correlation_analysis", "verification_status"]

/-- `AdvancedScanner._deep_web_scan` (main.py lines 325-337).  Its result
dict evaluates `self._scan_phone_directories()` (defined, catches its own
exceptions) and then `self._scan_social_networks()` — but no method named
`_scan_social_networks` (nor `_check_leak_databases`) is defined anywhere in
`AdvancedScanner`, so the attribute lookup raises `AttributeError` on every
call. -/
def _deep_web_scan : Except PyError (List String) :=
  Except.error (PyError.attributeError "_scan_social_networks")

/-- Section keys added by the deep branch of `analyze_number` (main.py lines
150-156); reaching past `_deep_web_scan` would also require the undefined
`_check_fraud_indicators` and `_gather_historical_data`. -/
def deepSections : List String :=
  ["deep_web_analysis", "social_media_presence", "fraud_indicators",
   "historical_data"]

/-- Section keys added by the comprehensive branch (main.py lines
158-164). -/
def comprehensiveSections : List String :=
  ["pattern_analysis", "behavioral_indicators", "cross_platform_correlation",
   "anomaly_detection"]

/-- `AdvancedScanner.analyze_number` (main.py lines 139-166), tracking which
exceptions escape.  The base dict's values are evaluated in order; every
method there except `_assess_risk` catches its own exceptions or is a
constant stub, while `_assess_risk` re-raises `NumberParseException` for an
unparseable subject.  The deep/comprehensive branch then evaluates
`_deep_web_scan`, whose `AttributeError` (undefined `_scan_social_networks`)
escapes uncaught.  The result lists the section keys of the returned
dict. -/
def analyze_number (parsed : Option Int) (carrier_name : String)
    (scan_type : ScanType) : Except PyError (List String) :=
  match _assess_risk parsed carrier_name with
  | Except.error e => Except.error e
  | Except.ok _ =>
    if scan_type = ScanType.deep ∨ scan_type = ScanType.comprehensive then
      match _deep_web_scan with
      | Except.error e => Except.error e
      | Except.ok _ =>
        if scan_type = ScanType.comprehensive then
          Except.ok (baseSections ++ deepSections ++ comprehensiveSections)
        else
          Except.ok (baseSections ++ deepSections)
    else
      Except.ok baseSections

/-- The eps-neighbourhood query of DBSCAN: all dataset points within eps of
`p` (the `close` relation; `p` itself is in its own neighbourhood). -/
def regionQuery (close : α → α → Bool) (pts : List α) (p : α) : List α :=
  pts.filter (close p)

/-- DBSCAN core-point test at index `i` (sklearn semantics: at least
`min_samples` dataset points, the point itself included, within eps). -/
def isCorePoint [Inhabited α] (close : α → α → Bool) (min_samples : Nat)
    (pts : List α) (i : Nat) : Bool :=
  decide (min_samples ≤ (regionQuery close pts (pts.getD i default)).length)

/-- Indices of the core points of the dataset. -/
def coreIndices [Inhabited α] (close : α → α → Bool) (min_samples : Nat)
    (pts : List α) : List Nat :=
  (List.range pts.length).filter (isCorePoint close min_samples pts)

/-- Adjacency of two dataset indices: the points are within eps. -/
def adjacentIdx [Inhabited α] (close : α → α → Bool) (pts : List α)
    (i j : Nat) : Bool :=
  close (pts.getD i default) (pts.getD j default)

/-- Connected components of the core points under eps-adjacency, built
incrementally: each core index merges every existing component it
touches. -/
def coreComponents [Inhabited α] (close : α → α → Bool) (min_samples : Nat)
    (pts : List α) : List (List Nat) :=
  (coreIndices close min_samples pts).foldl
    (fun cs i =>
      (i :: (cs.partition (fun c => c.any (adjacentIdx close pts i))).1.flatten)
        :: (cs.partition (fun c => c.any (adjacentIdx close pts i))).2)
    []

/-- Cluster label of index `i`: the position of its component, -1 when it is
in none. -/
def compLabel (comps : List (List Nat)) (i : Nat) : Int :=
  match comps.findIdx? (fun c => c.contains i) with
  | some k => (k : Int)
  | none => -1

/-- The label vector `DBSCAN(eps, min_samples).fit(pts).labels_`: a core
point gets its component's label, a border point (non-core but within eps of
a core point) the label of such a core point, and every other point the
noise label -1.  Which adjacent core a border point is attached to is a
tie-break that does not affect the set of distinct labels. -/
def dbscanLabels [Inhabited α] (close : α → α → Bool) (min_samples : Nat)
    (pts : List α) : List Int :=
  (List.range pts.length).map fun i =>
    if isCorePoint close min_samples pts i then
      compLabel (coreComponents close min_samples pts) i
    else
      match (coreIndices close min_samples pts).find?
          (fun j => adjacentIdx close pts j i) with
      | some j => compLabel (coreComponents close min_samples pts) j
      | none => -1

/-- Python's `len(set(labels_))`: the number of distinct labels. -/
def lenSetLabels (labels : List Int) : Nat := labels.dedup.length

/-- The temporal eps-neighbourhood of `_analyze_patterns`: 1-dimensional
Euclidean distance at most eps = 3, stated on squares. -/
def closeTemporal (x y : ℚ) : Bool := decide ((x - y)^2 ≤ 3^2)

/-- The geographic eps-neighbourhood of `_analyze_patterns`: Euclidean
distance on coordinates at most eps = 0.1, stated on squares. -/
def closeGeo (p q : ℚ × ℚ) : Bool :=
  decide ((p.1 - q.1)^2 + (p.2 - q.2)^2 ≤ (1/10)^2)

/-- The `temporal_patterns` dict of `_analyze_patterns`. -/
structure TemporalPatterns where
  clusters : Nat
  peak_hours : List ℚ
deriving DecidableEq, Repr

/-- The `location_patterns` dict of `_analyze_patterns`. -/
structure LocationPatterns where
  clusters : Nat
  hotspots : List (ℚ × ℚ)
deriving DecidableEq, Repr

/-- The temporal branch of `_analyze_patterns` (main.py lines 452-462):
when `len(activity_hours) > 0` it fits `DBSCAN(eps=3, min_samples=2)` and
reports `clusters = len(set(labels_))` and the non-noise hours as
`peak_hours`; only an empty dimension is skipped with clusters 0. -/
def temporal_patterns (activity_hours : List ℚ) : TemporalPatterns :=
  if activity_hours.length > 0 then
    ⟨lenSetLabels (dbscanLabels closeTemporal 2 activity_hours),
      (activity_hours.zip (dbscanLabels closeTemporal 2 activity_hours)).filterMap
        fun hl => if hl.2 ≠ -1 then some hl.1 else none⟩
  else ⟨0, []⟩

/-- The geographic branch of `_analyze_patterns` (main.py lines 464-474):
when the coordinate list is truthy (non-empty) it fits
`DBSCAN(eps=0.1, min_samples=2)` and reports `clusters = len(set(labels_))`
and the non-noise points as `hotspots`; only an empty dimension is skipped
with clusters 0. -/
def location_patterns (coordinates : List (ℚ × ℚ)) : LocationPatterns :=
  if coordinates ≠ [] then
    ⟨lenSetLabels (dbscanLabels closeGeo 2 coordinates),
      (coordinates.zip (dbscanLabels closeGeo 2 coordinates)).filterMap
        fun cl => if cl.2 ≠ -1 then some cl.1 else none⟩
  else ⟨0, []⟩

/-- Filtering by `keptChar` is idempotent. -/
theorem filter_keptChar_idem (l : List Char) :
    (l.filter keptChar).filter keptChar = l.filter keptChar := by
  induction l with
  | nil => rfl
  | cons c t ih =>
    by_cases h : keptChar c = true
    · simp [List.filter_cons, h, ih]
    · simp [List.filter_cons, h, ih]

/-- Idempotence of the character-list normalizer. -/
theorem normalizeChars_idem (l : List Char) :
    normalizeChars (normalizeChars l) = normalizeChars l := by
  by_cases h : startsWithPlus (l.filter keptChar) = true
  · have h1 : normalizeChars l = l.filter keptChar := by
      rw [normalizeChars, if_pos h]
    rw [h1, normalizeChars, filter_keptChar_idem, if_pos h]
  · have h1 : normalizeChars l = '+' :: '1' :: l.filter keptChar := by
      rw [normalizeChars, if_neg h]
    have hp : keptChar '+' = true := rfl
    have ho : keptChar '1' = true := rfl
    have hf : ('+' :: '1' :: l.filter keptChar).filter keptChar
        = '+' :: '1' :: l.filter keptChar := by
      simp [List.filter_cons, hp, ho, filter_keptChar_idem]
    rw [h1, normalizeChars, hf]
    rfl

/-- C7: `normalize_number` is idempotent —
`normalize_number (normalize_number x) = normalize_number x` for every raw
subject string `x`. -/
theorem normalize_number_idempotent (x : String) :
    normalize_number (normalize_number x) = normalize_number x :=
  congrArg String.mk (normalizeChars_idem x.toList)

/-- C9: normalizing the raw subject string "(555) 555-0123" produces
"+15555550123": non-digit characters other than a leading plus are stripped
and, absent a plus prefix, the default country prefix is prepended. -/
theorem normalize_number_paren_scenario :
    normalize_number "(555) 555-0123" = "+15555550123" := by
  rfl

/-- C5: `_categorize_risk` maps a score to a level by the thresholds 0.2,
0.4, 0.6, 0.8, each boundary inclusive on the lower side. -/
theorem categorize_risk_thresholds (x : ℚ) :
    (x < 2/10 → _categorize_risk x = "Very Low") ∧
    (2/10 ≤ x → x < 4/10 → _categorize_risk x = "Low") ∧
    (4/10 ≤ x → x < 6/10 → _categorize_risk x = "Medium") ∧
    (6/10 ≤ x → x < 8/10 → _categorize_risk x = "High") ∧
    (8/10 ≤ x → _categorize_risk x = "Very High") := by
  unfold _categorize_risk
  refine ⟨?_, ?_, ?_, ?_, ?_⟩ <;> intros <;> split_ifs <;> first | rfl | linarith

/-- Witness for C5: a score of 0.3 lies in [0.2, 0.4) and is categorized
"Low". -/
theorem categorize_risk_thresholds_witness :
    (2/10 : ℚ) ≤ 3/10 ∧ (3/10 : ℚ) < 4/10 ∧ _categorize_risk (3/10) = "Low" :=
  ⟨by norm_num, by norm_num,
    (categorize_risk_thresholds (3/10)).2.1 (by norm_num) (by norm_num)⟩

/-- The level index of a categorized score equals a numeric threshold
ladder. -/
theorem riskLevelIndex_categorize (x : ℚ) :
    riskLevelIndex (_categorize_risk x) =
      if x < 2/10 then 0 else if x < 4/10 then 1 else if x < 6/10 then 2
      else if x < 8/10 then 3 else 4 := by
  unfold _categorize_risk
  split_ifs <;> rfl

/-- C10: `_categorize_risk` is total (always one of the five levels) over all
rational scores, sends every score below 0 to "Very Low" and every score at
or above 0.8 (including above 1) to "Very High", and is monotone with respect
to the level order Very Low < Low < Medium < High < Very High. -/
theorem categorize_risk_total_and_monotone (x y : ℚ) :
    (_categorize_risk x = "Very Low" ∨ _categorize_risk x = "Low" ∨
      _categorize_risk x = "Medium" ∨ _categorize_risk x = "High" ∨
      _categorize_risk x = "Very High") ∧
    (x < 0 → _categorize_risk x = "Very Low") ∧
    (8/10 ≤ x → _categorize_risk x = "Very High") ∧
    (x ≤ y → riskLevelIndex (_categorize_risk x) ≤
      riskLevelIndex (_categorize_risk y)) := by
  refine ⟨?_, ?_, ?_, ?_⟩
  · unfold _categorize_risk
    split_ifs <;> simp
  · intro h
    unfold _categorize_risk
    split_ifs <;> first | rfl | linarith
  · intro h
    unfold _categorize_risk
    split_ifs <;> first | rfl | linarith
  · intro h
    rw [riskLevelIndex_categorize, riskLevelIndex_categorize]
    split_ifs <;> first | omega | linarith

/-- Witness for C10: a score of -1 maps to "Very Low", a score of 1 maps to
"Very High", and the level index respects -1 ≤ 1. -/
theorem categorize_risk_total_and_monotone_witness :
    _categorize_risk (-1) = "Very Low" ∧ _categorize_risk 1 = "Very High" ∧
    riskLevelIndex (_categorize_risk (-1)) ≤
      riskLevelIndex (_categorize_risk 1) :=
  ⟨(categorize_risk_total_and_monotone (-1) 1).2.1 (by norm_num),
    (categorize_risk_total_and_monotone 1 1).2.2.1 (by norm_num),
    (categorize_risk_total_and_monotone (-1) 1).2.2.2 (by norm_num)⟩

/-- C1 counterexample: `_make_request` is not exception-free.  With the
default `max_retries = 3`, three consecutive timeouts make the final
attempt's exception escape to the caller (`some (.error _)` models the
re-raise at `attempt == max_retries - 1`); no status-bearing result is
returned, contrary to the claim that every outcome is returned as a
SourceResult recording the failure. -/
theorem make_request_raises_on_exhaustion :
    _make_request [AttemptOutcome.timeout, AttemptOutcome.timeout,
      AttemptOutcome.timeout] = some (Except.error RequestError.timeout) :=
  rfl

/-- C1 amended: for a positive number of attempts, `_make_request` raises
exactly when every attempt fails; otherwise it returns the payload of the
first successful attempt.  Failures are re-raised to the caller, not encoded
in a returned status field. -/
theorem make_request_error_iff_all_attempts_fail
    (attempts : List AttemptOutcome) (h : attempts ≠ []) :
    raisesOut (_make_request attempts) = attempts.all attemptFails := by
  induction attempts with
  | nil => exact absurd rfl h
  | cons a rest ih =>
    cases rest with
    | nil =>
      cases ha : attemptResult a with
      | ok p => simp [_make_request, raisesOut, ha, attemptFails]
      | error e => simp [_make_request, raisesOut, ha, attemptFails]
    | cons b r =>
      cases ha : attemptResult a with
      | ok p => simp [_make_request, raisesOut, ha, attemptFails]
      | error e =>
        have hr := ih (by simp)
        simp [_make_request, ha, attemptFails, hr]

/-- Witness for the amended C1, at three failing attempts. -/
theorem make_request_error_iff_all_attempts_fail_witness :
    ([AttemptOutcome.timeout, AttemptOutcome.connectionError,
        AttemptOutcome.httpError 500] ≠ []) ∧
    raisesOut (_make_request [AttemptOutcome.timeout,
        AttemptOutcome.connectionError, AttemptOutcome.httpError 500]) =
      [AttemptOutcome.timeout, AttemptOutcome.connectionError,
        AttemptOutcome.httpError 500].all attemptFails :=
  ⟨by simp,
    make_request_error_iff_all_attempts_fail
      [AttemptOutcome.timeout, AttemptOutcome.connectionError,
        AttemptOutcome.httpError 500] (by simp)⟩

/-- C6 counterexample: `_make_request` retries after a 404 response and after
a 429 rate-limit response.  In both runs the first attempt fails with an
`HTTPError` from `raise_for_status`, yet the function proceeds to the second
attempt and returns its payload — the claim says a 4xx or rate-limit signal
is terminal with no retry. -/
theorem make_request_retries_on_4xx_and_429 :
    _make_request [AttemptOutcome.httpError 404, AttemptOutcome.ok true "a",
        AttemptOutcome.timeout] =
      some (Except.ok (Payload.jsonPayload "a")) ∧
    _make_request [AttemptOutcome.httpError 429, AttemptOutcome.ok false "b",
        AttemptOutcome.timeout] =
      some (Except.ok (Payload.textPayload "b")) :=
  ⟨rfl, rfl⟩

/-- C6 amended: the `except Exception` clause makes `_make_request` retry
after every kind of failed attempt — timeout, connection error, 5xx, and
equally 4xx and 429 responses — up to `max_retries` attempts in total, and
the final attempt's outcome (payload or re-raised exception) is returned
as-is. -/
theorem make_request_retry_policy (a : AttemptOutcome)
    (rest : List AttemptOutcome) :
    (rest ≠ [] → attemptFails a = true →
      _make_request (a :: rest) = _make_request rest) ∧
    _make_request [a] = some (attemptResult a) := by
  constructor
  · intro hrest hfail
    cases rest with
    | nil => exact absurd rfl hrest
    | cons b r =>
      cases ha : attemptResult a with
      | ok p => simp [attemptFails, ha] at hfail
      | error e => simp [_make_request, ha]
  · rfl

/-- Witness for the amended C6: a 404 on the first of two attempts leads to a
retry. -/
theorem make_request_retry_policy_witness :
    ([AttemptOutcome.timeout] ≠ []) ∧
    attemptFails (AttemptOutcome.httpError 404) = true ∧
    _make_request [AttemptOutcome.httpError 404, AttemptOutcome.timeout] =
      _make_request [AttemptOutcome.timeout] :=
  ⟨by simp, rfl,
    (make_request_retry_policy (AttemptOutcome.httpError 404)
        [AttemptOutcome.timeout]).1 (by simp) rfl⟩

/-- C2 counterexample: a source whose fetch raises contributes no entry at
all to the `results` of `_parallel_requests` — the returned list has zero
entries for one dispatched url, not exactly one per url. -/
theorem parallel_requests_drops_failures :
    (_parallel_requests ["https://a"]
        (fun _ => some (Except.error RequestError.timeout))).length ≠
      ["https://a"].length := by
  decide

/-- C2 amended: `_parallel_requests` returns one entry per url whose fetch
did not raise (successful payloads and Python `None` results), in particular
at most one entry per dispatched url; urls whose fetch raised are dropped,
so the output can be shorter than the url list. -/
theorem parallel_requests_coverage (urls : List String)
    (fetch : String → Option (Except RequestError Payload)) :
    (_parallel_requests urls fetch).length =
      (urls.filter fun u => fetchKept (fetch u)).length ∧
    (_parallel_requests urls fetch).length ≤ urls.length := by
  constructor
  · induction urls with
    | nil => rfl
    | cons u rest ih =>
      cases hf : fetch u with
      | none =>
        simp [_parallel_requests, List.filterMap_cons, List.filter_cons, hf,
          fetchKept] at ih ⊢
        exact ih
      | some r =>
        cases r with
        | ok p =>
          simp [_parallel_requests, List.filterMap_cons, List.filter_cons,
            hf, fetchKept] at ih ⊢
          exact ih
        | error e =>
          simp [_parallel_requests, List.filterMap_cons, List.filter_cons,
            hf, fetchKept] at ih ⊢
          exact ih
  · exact List.length_filterMap_le _ _

/-- C3: `analyze_number` at a valid, parseable subject raises
`AttributeError` for the undefined method `_scan_social_networks` on both
the deep and the comprehensive tier (the default), while the basic tier
completes and an unparseable subject raises only the parse error.  The
escaping `AttributeError` contradicts the claim that only a validation
error can escape the orchestration. -/
theorem analyze_number_attribute_error_escapes :
    analyze_number (some 1) "Verizon" ScanType.deep =
      Except.error (PyError.attributeError "_scan_social_networks") ∧
    analyze_number (some 1) "Verizon" ScanType.comprehensive =
      Except.error (PyError.attributeError "_scan_social_networks") ∧
    analyze_number (some 1) "Verizon" ScanType.basic =
      Except.ok baseSections ∧
    analyze_number none "Verizon" ScanType.basic =
      Except.error PyError.numberParseException :=
  ⟨rfl, rfl, rfl, rfl⟩

/-- Bounds on the line-type risk score entry. -/
theorem get_line_type_score_bounds (nt : Int) :
    2/10 ≤ (_get_line_type nt).risk_score ∧
      (_get_line_type nt).risk_score ≤ 1 := by
  unfold _get_line_type
  split_ifs <;> constructor <;> norm_num

/-- Bounds on the carrier-reliability factor. -/
theorem carrier_reliability_bounds (parseOk : Bool) (carrier_name : String) :
    3/10 ≤ _assess_carrier_reliability parseOk carrier_name ∧
      _assess_carrier_reliability parseOk carrier_name ≤ 8/10 := by
  unfold _assess_carrier_reliability
  split_ifs <;> constructor <;> norm_num

/-- C4: whenever `_assess_risk` returns (that is, the subject parses), the
composite `risk_score` — the mean of the four factor values — lies in
[0, 1]. -/
theorem assess_risk_score_bounded (parsed : Option Int)
    (carrier_name : String) (ra : RiskAssessment)
    (hok : _assess_risk parsed carrier_name = Except.ok ra) :
    0 ≤ ra.risk_score ∧ ra.risk_score ≤ 1 := by
  cases parsed with
  | none => exact absurd hok (by simp [_assess_risk])
  | some nt =>
    obtain ⟨hl1, hl2⟩ := get_line_type_score_bounds nt
    obtain ⟨hc1, hc2⟩ := carrier_reliability_bounds true carrier_name
    simp only [_assess_risk, List.map_cons, List.map_nil, List.sum_cons,
      List.sum_nil, List.length_cons, List.length_nil, Except.ok.injEq,
      _calculate_spam_probability, _calculate_fraud_score] at hok
    subst hok
    constructor
    · show (0:ℚ) ≤ _ / _
      push_cast
      linarith
    · show (_ / _ : ℚ) ≤ 1
      push_cast
      linarith

/-- Witness for C4 at the concrete input nt = 1 (MOBILE) with a non-empty
carrier name: the score is 3/8 and lies in [0, 1]. -/
theorem assess_risk_score_bounded_witness :
    _assess_risk (some 1) "Verizon" = Except.ok
      ⟨3/8,
        [("number_type", 3/10), ("carrier_reliability", 3/10),
          ("spam_probability", 5/10), ("fraud_score", 4/10)], "Low", []⟩ ∧
    ((0:ℚ) ≤ 3/8 ∧ (3/8:ℚ) ≤ 1) := by
  have hok : _assess_risk (some 1) "Verizon" = Except.ok
      ⟨3/8,
        [("number_type", 3/10), ("carrier_reliability", 3/10),
          ("spam_probability", 5/10), ("fraud_score", 4/10)], "Low", []⟩ := by
    have hv : (("Verizon" : String) = "") = False := by simp
    simp only [_assess_risk, _get_line_type, _assess_carrier_reliability,
      _calculate_spam_probability, _calculate_fraud_score,
      _generate_risk_recommendations, _categorize_risk]
    norm_num [hv, Except.ok.injEq, RiskAssessment.mk.injEq, List.cons.injEq,
      Prod.mk.injEq]
  exact ⟨hok, assess_risk_score_bounded (some 1) "Verizon" _ hok⟩

/-- With `min_samples = 2` (or more), the single point of a one-point
dataset is not a core point, so DBSCAN labels it noise. -/
theorem dbscanLabels_singleton [Inhabited α] (close : α → α → Bool)
    (min_samples : Nat) (hms : 2 ≤ min_samples) (p : α) :
    dbscanLabels close min_samples [p] = [-1] := by
  have hnc : isCorePoint close min_samples [p] 0 = false := by
    have hle := List.length_filter_le
      (close (([p] : List α).getD 0 default)) [p]
    simp only [isCorePoint, regionQuery, decide_eq_false_iff_not]
    simp only [List.length_singleton] at hle
    omega
  have hr : List.range 1 = [0] := rfl
  simp [dbscanLabels, coreIndices, hnc, hr, List.find?]

/-- C8 counterexample: a geographic dimension with a single coordinate point
is not skipped — the code runs DBSCAN and reports
`clusters = len(set(labels_)) = 1` (the noise label -1 is itself counted),
not the claimed clusterCount 0. -/
theorem location_patterns_single_point_not_zero :
    (location_patterns [((1:ℚ), (2:ℚ))]).clusters ≠ 0 := by
  have h := dbscanLabels_singleton closeGeo 2 (le_refl 2) ((1:ℚ), (2:ℚ))
  simp [location_patterns, h, lenSetLabels]

/-- C8 amended: only a dimension with zero data points is skipped with
`clusters = 0`; a dimension with exactly one point runs the clustering pass
and reports `clusters = 1` — the distinct-label count includes the noise
label -1 given to the lone point — while the members/hotspots list is empty
and the point appears in no output field. -/
theorem patterns_few_points_cluster_count (p : ℚ × ℚ) (t : ℚ) :
    location_patterns [] = ⟨0, []⟩ ∧
    temporal_patterns [] = ⟨0, []⟩ ∧
    (location_patterns [p]).clusters = 1 ∧
    (location_patterns [p]).hotspots = [] ∧
    (temporal_patterns [t]).clusters = 1 ∧
    (temporal_patterns [t]).peak_hours = [] := by
  have hg := dbscanLabels_singleton closeGeo 2 (le_refl 2) p
  have ht := dbscanLabels_singleton closeTemporal 2 (le_refl 2) t
  refine ⟨rfl, rfl, ?_, ?_, ?_, ?_⟩ <;>
    simp [location_patterns, temporal_patterns, hg, ht, lenSetLabels]

end GroqPhoneinfoga
